import Mathlib

/-!
Shallow embedding of the fishroom message routing and forwarding engine
(src/fishroom/fishroom.py and src/fishroom/models.py).

The external collaborators (the redis bus, the chat logger, the text store
and the command registry from command.py / chatlogger.py / textstore.py,
which are not part of the sources under verification) are abstracted as
parameters of the engine environment; the engine itself is translated
statement by statement from ForwardingThread.
-/

namespace Fishroom

/-- Channel types, from models.py ChannelType: string constants
"xmpp", "irc", "telegram". -/
inductive ChannelType where
  | XMPP
  | IRC
  | Telegram
deriving DecidableEq, Repr

/-- The string constant each ChannelType stands for in models.py,
already lower case, so Python str.lower is the identity on them. -/
def ChannelType.tag : ChannelType → String
  | .XMPP => "xmpp"
  | .IRC => "irc"
  | .Telegram => "telegram"

/-- Message types, from models.py MessageType: string constants
"text", "photo", "sticker", "event", "command". -/
inductive MessageType where
  | Text
  | Photo
  | Sticker
  | Event
  | Command
deriving DecidableEq, Repr

/-- The string constant each MessageType stands for in models.py. -/
def MessageType.tag : MessageType → String
  | .Text => "text"
  | .Photo => "photo"
  | .Sticker => "sticker"
  | .Event => "event"
  | .Command => "command"

/-- Message envelope, from models.py Message.__init__: eight fields,
with mtype defaulting to Text and date, time, media_url defaulting to
None (here: Option String, default none). -/
structure Message where
  channel : ChannelType
  sender : String
  receiver : String
  content : String
  mtype : MessageType := MessageType.Text
  date : Option String := none
  time : Option String := none
  media_url : Option String := none
deriving DecidableEq, Repr

/-- A binding row of config["bindings"]: one concrete address per
network, keyed in the Python dict by the lower-case channel tag. -/
structure BindingRow where
  irc : String
  xmpp : String
  telegram : String
deriving DecidableEq, Repr

/-- Dict lookup b[tag] of a binding row at a channel tag, as done by
get_binding (b[msg.channel.lower()]) and the fan-out (b[c.ChanTag.lower()]). -/
def BindingRow.get (b : BindingRow) : ChannelType → String
  | .IRC => b.irc
  | .XMPP => b.xmpp
  | .Telegram => b.telegram

/-- A channel adapter as the engine sees it: only its ChanTag is read
by ForwardingThread (the send_msg capability is recorded in the output). -/
structure Adapter where
  ChanTag : ChannelType
deriving DecidableEq, Repr

/-- One send_msg call observed at an adapter: the adapter's network,
the target address, and the text passed. -/
structure Send where
  chan : ChannelType
  target : String
  text : String
deriving DecidableEq, Repr

/-- Modelled from the spec: the outcome of the command dispatch block
(parse_command, get_command_handler and the handler call live in
command.py, which is outside the verified sources). Either the handler
runs and returns a reply string, or no handler is registered for the
command name, or parsing / lookup / execution raises an error. -/
inductive DispatchResult where
  | reply (s : String)
  | noHandler
  | error
deriving DecidableEq, Repr

/-- Environment of one ForwardingThread run: the binding table (an
ordered association list, like the Python dict iterated by
get_binding), the adapter tuple, the configured bot name
(config.get with default "bot"), and the abstracted collaborators. -/
structure Env where
  bindings : List (String × BindingRow)
  channels : List Adapter
  botname : String
  /-- Modelled from the spec: command dispatch outcome for a message
  (command.py is outside the verified sources). -/
  dispatch : Message → DispatchResult
  /-- Modelled from the spec: text_store.new_paste, called with the
  room key, the message (carrying content, sender, date, time) and the
  log reference; returns a URL or None on failure (textstore.py is
  outside the verified sources). -/
  new_paste : String → Message → Nat → Option String
  /-- Modelled from the spec: chat_logger.log returns an opaque log
  reference for each logged message (chatlogger.py is outside the
  verified sources). -/
  log_ref : String → Message → Nat

/-- Observable effects of processing one message: the chat_logger.log
calls (room key and message, in call order), the text_store.new_paste
calls (room key, message, log reference), and the send_msg calls. -/
structure Effects where
  logs : List (String × Message)
  pastes : List (String × Message × Nat)
  sends : List Send
deriving DecidableEq, Repr

/-- get_binding from ForwardingThread: scan the binding table in order
and return the first row whose address for the message's channel
equals the message's receiver, else None. -/
def get_binding (bindings : List (String × BindingRow)) (msg : Message) :
    Option (String × BindingRow) :=
  bindings.find? (fun cb => msg.receiver == cb.2.get msg.channel)

/-- The command handling block of ForwardingThread: for a Command
message, run the dispatch; a returned reply becomes bot_reply, a
missing handler leaves bot_reply = "", and a raised error downgrades
mtype to Text and leaves bot_reply = "". Non-Command messages are
untouched. Returns the (possibly downgraded) message and bot_reply. -/
def dispatched (env : Env) (msg : Message) : Message × String :=
  if msg.mtype = MessageType.Command then
    match env.dispatch msg with
    | DispatchResult.reply s => (msg, s)
    | DispatchResult.noHandler => (msg, "")
    | DispatchResult.error => ({ msg with mtype := MessageType.Text }, "")
  else (msg, "")

/-- Number of newline characters in a string: msg.content.count of a
newline. -/
def countNewlines (s : String) : Nat :=
  (s.toList.filter (fun ch => ch == '\n')).length

/-- UTF-8 byte length of a string: len of msg.content.encode as utf-8. -/
def utf8len (s : String) : Nat :=
  s.toList.foldl (fun n ch => n + ch.utf8Size) 0

/-- The overflow condition of ForwardingThread:
msg.content.count of newline > 5 or utf-8 byte length >= 400. -/
def overflow (content : String) : Bool :=
  countNewlines content > 5 || utf8len content ≥ 400

/-- The character class of the regular expression whitespace escape on
a Python 3 str: CPython treats as whitespace the ASCII whitespace
characters, the separator controls x1c to x1f, the next-line control
x85, the no-break space xa0, the Ogham space mark, the range from en
quad to hair space, the line and paragraph separators, the narrow
no-break space, the medium mathematical space and the ideographic
space (the Unicode White_Space property plus x1c to x1f). -/
def isPySpace (ch : Char) : Bool :=
  ch == ' ' || ch == '\t' || ch == '\n' || ch == '\x0b' ||
  ch == '\x0c' || ch == '\r' ||
  ch == '\x1c' || ch == '\x1d' || ch == '\x1e' || ch == '\x1f' ||
  ch == '\x85' || ch == '\xa0' || ch == '\u1680' ||
  ('\u2000' ≤ ch && ch ≤ '\u200A') ||
  ch == '\u2028' || ch == '\u2029' || ch == '\u202F' ||
  ch == '\u205F' || ch == '\u3000'

/-- Whitespace-only test re.match of a whitespace-star anchored pattern:
true iff every character of the line is Python whitespace (an empty
line included). -/
def isBlankLine (line : String) : Bool :=
  line.toList.all isPySpace

/-- The non-overflow contents list: msg.content split on newline, with
blank / whitespace-only lines discarded. -/
def splitLines (content : String) : List String :=
  (content.splitOn "\n").filter (fun l => !(isBlankLine l))

/-- msg_tmpl format: "[sender] content". -/
def fmtLine (sender line : String) : String :=
  "[" ++ sender ++ "] " ++ line

/-- The final fan-out loop of ForwardingThread: for each adapter, if
its network differs from the origin or send_back is true, send each
content line formatted through msg_tmpl; then, if bot_reply is
non-empty, send bot_reply unformatted. -/
def fanout (channels : List Adapter) (b : BindingRow) (msg : Message)
    (bot_reply : String) (contents : List String) (send_back : Bool) :
    List Send :=
  channels.flatMap (fun a =>
    let target := b.get a.ChanTag
    (if a.ChanTag ≠ msg.channel ∨ send_back = true then
      contents.map (fun line => Send.mk a.ChanTag target (fmtLine msg.sender line))
    else []) ++
    (if bot_reply ≠ "" then [Send.mk a.ChanTag target bot_reply] else []))

/-- One iteration of the ForwardingThread message loop, translated
statement by statement: resolve the binding (drop the message when it
fails), run the command block, log the message (and the bot reply as a
synthetic bot message), then either relay an Event verbatim to every
adapter, or apply the overflow policy (pasting out on overflow,
dropping the message when the paste fails) and fan out. -/
def process (env : Env) (msg0 : Message) : Effects :=
  match get_binding env.bindings msg0 with
  | none => { logs := [], pastes := [], sends := [] }
  | some (c, b) =>
    let md := dispatched env msg0
    let msg := md.1
    let bot_reply := md.2
    let msg_id := env.log_ref c msg
    let logs :=
      (c, msg) ::
      (if bot_reply ≠ "" then
        [(c, { channel := msg.channel, sender := env.botname,
               receiver := msg.receiver, content := bot_reply,
               mtype := MessageType.Text, date := msg.date,
               time := msg.time, media_url := none })]
      else [])
    if msg.mtype = MessageType.Event then
      { logs := logs, pastes := [],
        sends := env.channels.map (fun a =>
          Send.mk a.ChanTag (b.get a.ChanTag) msg.content) }
    else
      if overflow msg.content then
        match env.new_paste c msg msg_id with
        | none => { logs := logs, pastes := [(c, msg, msg_id)], sends := [] }
        | some text_url =>
          { logs := logs, pastes := [(c, msg, msg_id)],
            sends := fanout env.channels b msg bot_reply
              [text_url ++ " (long text)"] true }
      else
        { logs := logs, pastes := [],
          sends := fanout env.channels b msg bot_reply
            (splitLines msg.content) false }

/-- Inverse of ChannelType.tag: the Enum field of MessageSchema admits
exactly the three channel tags of models.py. -/
def ChannelType.ofTag : String → Option ChannelType
  | "xmpp" => some ChannelType.XMPP
  | "irc" => some ChannelType.IRC
  | "telegram" => some ChannelType.Telegram
  | _ => none

/-- Inverse of MessageType.tag: the Enum field of MessageSchema admits
exactly the five message type tags of models.py. -/
def MessageType.ofTag : String → Option MessageType
  | "text" => some MessageType.Text
  | "photo" => some MessageType.Photo
  | "sticker" => some MessageType.Sticker
  | "event" => some MessageType.Event
  | "command" => some MessageType.Command
  | _ => none

/-- Modelled from the spec: Message.dumps through MessageSchema. The
schema (models.py) declares the eight fields channel, sender, receiver,
mtype, media_url, content, date, time; the serialized form is a JSON
object keyed by field name, with an unset optional field serialized as
an explicit null (Option none here). The field codecs of the
marshmallow library (outside the verified sources) are taken lossless
on strings per the transport contract of the spec. -/
def Message.dumps (m : Message) : List (String × Option String) :=
  [("channel", some m.channel.tag),
   ("sender", some m.sender),
   ("receiver", some m.receiver),
   ("mtype", some m.mtype.tag),
   ("media_url", m.media_url),
   ("content", some m.content),
   ("date", m.date),
   ("time", m.time)]

/-- Modelled from the spec: Message.loads through MessageSchema and
make_object, which builds Message from the deserialized field values.
The Enum fields validate their tag (an unknown tag fails to decode);
a null optional field decodes to the explicit none state; a missing or
null required field is a decode failure, never a constructed value. -/
def Message.loads (j : List (String × Option String)) : Option Message :=
  match (j.lookup "channel").join.bind ChannelType.ofTag,
        (j.lookup "sender").join,
        (j.lookup "receiver").join,
        (j.lookup "content").join,
        (j.lookup "mtype").join.bind MessageType.ofTag with
  | some ch, some sender, some receiver, some content, some mt =>
    some { channel := ch, sender := sender, receiver := receiver,
           content := content, mtype := mt,
           date := (j.lookup "date").join,
           time := (j.lookup "time").join,
           media_url := (j.lookup "media_url").join }
  | _, _, _, _, _ => none

/-! Concrete fixtures, mirroring the scenario of the spec: one room
bound to "#a" on IRC, "room@conf" on XMPP and "-100123" on Telegram,
with the three adapters in configuration order. -/

/-- The scenario binding row of the spec. -/
def sampleRow : BindingRow :=
  { irc := "#a", xmpp := "room@conf", telegram := "-100123" }

/-- The three adapters of main, in their configuration order. -/
def sampleChannels : List Adapter :=
  [Adapter.mk ChannelType.Telegram, Adapter.mk ChannelType.IRC,
   Adapter.mk ChannelType.XMPP]

/-- Base environment: one binding, no registered command handler, a
failing text store. -/
def envBase : Env :=
  { bindings := [("room1", sampleRow)]
    channels := sampleChannels
    botname := "bot"
    dispatch := fun _ => DispatchResult.noHandler
    new_paste := fun _ _ _ => none
    log_ref := fun _ _ => 0 }

/-- Environment whose text store succeeds with a fixed URL. -/
def envPasteOk : Env :=
  { envBase with new_paste := fun _ _ _ => some "p.io/1" }

/-- Environment whose command dispatch returns the reply "pong" and
whose text store succeeds. -/
def envCmdPong : Env :=
  { envPasteOk with dispatch := fun _ => DispatchResult.reply "pong" }

/-- Environment whose command dispatch returns the reply "pong" but
whose text store fails. -/
def envCmdFail : Env :=
  { envBase with dispatch := fun _ => DispatchResult.reply "pong" }

/-- Environment whose command dispatch raises. -/
def envCmdError : Env :=
  { envBase with dispatch := fun _ => DispatchResult.error }

/-- An Event message arriving from IRC on the bound address. -/
def msgEvent : Message :=
  { channel := ChannelType.IRC, sender := "alice", receiver := "#a",
    content := "alice joined", mtype := MessageType.Event }

/-- A short text message whose middle line holds only whitespace (a
no-break space and an ASCII space), so the line filter must drop it. -/
def msgHi : Message :=
  { channel := ChannelType.IRC, sender := "alice", receiver := "#a",
    content := "hi\n\xa0 \nyo" }

/-- A text message with six newlines, which triggers overflow. -/
def msgLong : Message :=
  { channel := ChannelType.IRC, sender := "alice", receiver := "#a",
    content := "a\nb\nc\nd\ne\nf\ng" }

/-- A short command message. -/
def msgCmdPing : Message :=
  { channel := ChannelType.IRC, sender := "alice", receiver := "#a",
    content := "ping it", mtype := MessageType.Command }

/-- A command message with seven newlines, which triggers overflow. -/
def msgCmdLong : Message :=
  { channel := ChannelType.IRC, sender := "alice", receiver := "#a",
    content := "x\n\n\n\n\n\n\n", mtype := MessageType.Command }

/-- A message whose receiver matches no binding row. -/
def msgNoBind : Message :=
  { channel := ChannelType.IRC, sender := "alice", receiver := "#b",
    content := "hi" }

/-! Helper lemmas about the command block and the fan-out. -/

/-- The command block leaves the message unchanged or only downgrades
its mtype to Text. -/
theorem dispatched_shape (env : Env) (msg : Message) :
    (dispatched env msg).1 = msg ∨
    (dispatched env msg).1 = { msg with mtype := MessageType.Text } := by
  unfold dispatched
  by_cases h : msg.mtype = MessageType.Command
  · rw [if_pos h]
    cases env.dispatch msg <;> simp
  · rw [if_neg h]
    exact Or.inl rfl

/-- The command block preserves every field except possibly mtype. -/
theorem dispatched_fields (env : Env) (msg : Message) :
    (dispatched env msg).1.content = msg.content ∧
    (dispatched env msg).1.sender = msg.sender ∧
    (dispatched env msg).1.channel = msg.channel ∧
    (dispatched env msg).1.receiver = msg.receiver ∧
    (dispatched env msg).1.date = msg.date ∧
    (dispatched env msg).1.time = msg.time := by
  rcases dispatched_shape env msg with h | h <;> rw [h] <;> exact ⟨rfl, rfl, rfl, rfl, rfl, rfl⟩

/-- The command block never turns a non-Event message into an Event. -/
theorem dispatched_mtype_ne_event (env : Env) (msg : Message)
    (he : msg.mtype ≠ MessageType.Event) :
    (dispatched env msg).1.mtype ≠ MessageType.Event := by
  rcases dispatched_shape env msg with h | h <;> rw [h]
  · exact he
  · simp

/-- A message that is not a Command passes the command block untouched
with an empty bot_reply. -/
theorem dispatched_not_command (env : Env) (msg : Message)
    (h : msg.mtype ≠ MessageType.Command) :
    dispatched env msg = (msg, "") := by
  unfold dispatched
  rw [if_neg h]

/-- A non-empty bot_reply can only come from a successful handler on a
Command message, which is then not downgraded. -/
theorem dispatched_reply_ne (env : Env) (msg : Message)
    (hr : (dispatched env msg).2 ≠ "") :
    (dispatched env msg).1 = msg ∧ msg.mtype = MessageType.Command := by
  unfold dispatched at hr ⊢
  by_cases h : msg.mtype = MessageType.Command
  · rw [if_pos h] at hr ⊢
    rcases hd : env.dispatch msg with s | _ | _ <;> rw [hd] at hr <;> simp_all
  · rw [if_neg h] at hr
    simp at hr

/-- The reply send to an adapter is part of the fan-out whenever the
bot_reply is non-empty, whatever the relay condition. -/
theorem reply_mem_fanout (channels : List Adapter) (b : BindingRow)
    (msg : Message) (bot_reply : String) (contents : List String)
    (send_back : Bool) (a : Adapter) (ha : a ∈ channels)
    (hr : bot_reply ≠ "") :
    Send.mk a.ChanTag (b.get a.ChanTag) bot_reply ∈
      fanout channels b msg bot_reply contents send_back := by
  unfold fanout
  rw [List.mem_flatMap]
  refine ⟨a, ha, ?_⟩
  rw [List.mem_append]
  exact Or.inr (by simp [hr])

/-- C1, counterexample: the claim that the fan-out never sends an
Event to the origin adapter is false. An IRC-origin Event resolved by
the sample binding is sent to the IRC adapter itself at its bound
address "#a" (the Event loop of ForwardingThread has no origin check). -/
theorem c1_event_origin_counterexample :
    msgEvent.mtype = MessageType.Event ∧
    msgEvent.channel = ChannelType.IRC ∧
    get_binding envBase.bindings msgEvent = some ("room1", sampleRow) ∧
    Adapter.mk ChannelType.IRC ∈ envBase.channels ∧
    Send.mk ChannelType.IRC "#a" "alice joined" ∈
      (process envBase msgEvent).sends := by
  refine ⟨rfl, rfl, rfl, ?_, ?_⟩ <;> decide

/-- C1, amended: for every Event message that resolves to a binding,
the fan-out sends the content verbatim to the bound address of every
adapter, including the adapter of the origin network, and the overflow
store is never consulted. -/
theorem c1_event_fanout (env : Env) (msg : Message) (c : String)
    (b : BindingRow) (hb : get_binding env.bindings msg = some (c, b))
    (he : msg.mtype = MessageType.Event) :
    (process env msg).sends =
      env.channels.map (fun a =>
        Send.mk a.ChanTag (b.get a.ChanTag) msg.content) ∧
    (process env msg).pastes = [] := by
  have hd : dispatched env msg = (msg, "") := by
    refine dispatched_not_command env msg ?_
    rw [he]
    simp
  simp [process, hb, hd, he]

/-- C1 witness: the amended theorem applied to the sample Event. -/
theorem c1_event_fanout_witness :
    (process envBase msgEvent).sends =
      envBase.channels.map (fun a =>
        Send.mk a.ChanTag (sampleRow.get a.ChanTag) msgEvent.content) ∧
    (process envBase msgEvent).pastes = [] :=
  c1_event_fanout envBase msgEvent "room1" sampleRow rfl rfl

/-- C4: a message whose channel and receiver match no binding row
produces no log call, no overflow-store call and no send; the loop
body is total and just moves on. -/
theorem c4_unroutable_drop (env : Env) (msg : Message)
    (hb : get_binding env.bindings msg = none) :
    process env msg = { logs := [], pastes := [], sends := [] } := by
  simp [process, hb]

/-- C4 witness: the theorem applied to a message bound to no row. -/
theorem c4_unroutable_drop_witness :
    process envBase msgNoBind = { logs := [], pastes := [], sends := [] } :=
  c4_unroutable_drop envBase msgNoBind rfl

/-- Characterization of the loop body for a routed non-Event message:
the message is logged (with the bot reply, when any), then the
overflow policy decides between pasting out and line splitting. -/
theorem process_nonEvent (env : Env) (msg : Message) (c : String)
    (b : BindingRow) (hb : get_binding env.bindings msg = some (c, b))
    (he : msg.mtype ≠ MessageType.Event) :
    process env msg =
      (if overflow (dispatched env msg).1.content then
        match env.new_paste c (dispatched env msg).1
            (env.log_ref c (dispatched env msg).1) with
        | none =>
          { logs := (c, (dispatched env msg).1) ::
              (if (dispatched env msg).2 ≠ "" then
                [(c, { channel := (dispatched env msg).1.channel,
                       sender := env.botname,
                       receiver := (dispatched env msg).1.receiver,
                       content := (dispatched env msg).2,
                       mtype := MessageType.Text,
                       date := (dispatched env msg).1.date,
                       time := (dispatched env msg).1.time,
                       media_url := none })]
              else [])
            pastes := [(c, (dispatched env msg).1,
              env.log_ref c (dispatched env msg).1)]
            sends := [] }
        | some text_url =>
          { logs := (c, (dispatched env msg).1) ::
              (if (dispatched env msg).2 ≠ "" then
                [(c, { channel := (dispatched env msg).1.channel,
                       sender := env.botname,
                       receiver := (dispatched env msg).1.receiver,
                       content := (dispatched env msg).2,
                       mtype := MessageType.Text,
                       date := (dispatched env msg).1.date,
                       time := (dispatched env msg).1.time,
                       media_url := none })]
              else [])
            pastes := [(c, (dispatched env msg).1,
              env.log_ref c (dispatched env msg).1)]
            sends := fanout env.channels b (dispatched env msg).1
              (dispatched env msg).2 [text_url ++ " (long text)"] true }
      else
        { logs := (c, (dispatched env msg).1) ::
            (if (dispatched env msg).2 ≠ "" then
              [(c, { channel := (dispatched env msg).1.channel,
                     sender := env.botname,
                     receiver := (dispatched env msg).1.receiver,
                     content := (dispatched env msg).2,
                     mtype := MessageType.Text,
                     date := (dispatched env msg).1.date,
                     time := (dispatched env msg).1.time,
                     media_url := none })]
            else [])
          pastes := []
          sends := fanout env.channels b (dispatched env msg).1
            (dispatched env msg).2 (splitLines (dispatched env msg).1.content)
            false }) := by
  have hne := dispatched_mtype_ne_event env msg he
  simp [process, hb, hne]

/-- C3: for a routed non-Event message, the overflow store is consulted
exactly when the content has strictly more than five newline characters
or its UTF-8 encoding is at least 400 bytes long. -/
theorem c3_overflow_condition (env : Env) (msg : Message) (c : String)
    (b : BindingRow) (hb : get_binding env.bindings msg = some (c, b))
    (he : msg.mtype ≠ MessageType.Event) :
    (process env msg).pastes ≠ [] ↔
      (countNewlines msg.content > 5 ∨ utf8len msg.content ≥ 400) := by
  rw [process_nonEvent env msg c b hb he,
    (dispatched_fields env msg).1]
  by_cases ho : overflow msg.content
  · rw [if_pos ho]
    simp only [overflow, Bool.or_eq_true, decide_eq_true_eq] at ho
    cases hp : env.new_paste c (dispatched env msg).1
        (env.log_ref c (dispatched env msg).1) <;> simpa using ho
  · rw [if_neg ho]
    simp only [overflow, Bool.or_eq_true, decide_eq_true_eq, not_or] at ho
    simpa using ho

/-- C3 witness: the condition instantiated on the six-newline message,
where both sides hold. -/
theorem c3_overflow_condition_witness :
    (process envPasteOk msgLong).pastes ≠ [] ↔
      (countNewlines msgLong.content > 5 ∨ utf8len msgLong.content ≥ 400) :=
  c3_overflow_condition envPasteOk msgLong "room1" sampleRow rfl (by decide)

/-- C7: when a routed non-Event message overflows and the text store
returns no URL, no adapter send at all happens for that message; the
loop body still returns normally. -/
theorem c7_paste_failure_no_send (env : Env) (msg : Message) (c : String)
    (b : BindingRow) (hb : get_binding env.bindings msg = some (c, b))
    (he : msg.mtype ≠ MessageType.Event)
    (ho : overflow msg.content = true)
    (hp : env.new_paste c (dispatched env msg).1
      (env.log_ref c (dispatched env msg).1) = none) :
    (process env msg).sends = [] := by
  rw [process_nonEvent env msg c b hb he, (dispatched_fields env msg).1,
    if_pos ho, hp]

/-- C7 witness: the failing store on the six-newline message. -/
theorem c7_paste_failure_no_send_witness :
    (process envBase msgLong).sends = [] :=
  c7_paste_failure_no_send envBase msgLong "room1" sampleRow rfl (by decide)
    (by decide) rfl

/-- C2: when a routed non-Event message overflows and the text store
returns a URL, send-back is forced true, so every adapter, the origin
adapter included, receives exactly one relay send whose text is the
single line "url (long text)" formatted as "[sender] line", at its
bound address (followed only by the unformatted bot reply when one
exists). -/
theorem c2_overflow_success_fanout (env : Env) (msg : Message) (c : String)
    (b : BindingRow) (url : String)
    (hb : get_binding env.bindings msg = some (c, b))
    (he : msg.mtype ≠ MessageType.Event)
    (ho : overflow msg.content = true)
    (hp : env.new_paste c (dispatched env msg).1
      (env.log_ref c (dispatched env msg).1) = some url) :
    (process env msg).sends =
      env.channels.flatMap (fun a =>
        Send.mk a.ChanTag (b.get a.ChanTag)
          (fmtLine msg.sender (url ++ " (long text)")) ::
        (if (dispatched env msg).2 ≠ "" then
          [Send.mk a.ChanTag (b.get a.ChanTag) (dispatched env msg).2]
        else [])) := by
  rw [process_nonEvent env msg c b hb he, (dispatched_fields env msg).1,
    if_pos ho, hp]
  simp [fanout, (dispatched_fields env msg).2.1]

/-- C2 witness: the six-newline message with a succeeding store; each
of the three adapters, the IRC origin included, gets the single
"[alice] p.io/1 (long text)" line. -/
theorem c2_overflow_success_fanout_witness :
    (process envPasteOk msgLong).sends =
      envPasteOk.channels.flatMap (fun a =>
        Send.mk a.ChanTag (sampleRow.get a.ChanTag)
          (fmtLine msgLong.sender ("p.io/1" ++ " (long text)")) ::
        (if (dispatched envPasteOk msgLong).2 ≠ "" then
          [Send.mk a.ChanTag (sampleRow.get a.ChanTag)
            (dispatched envPasteOk msgLong).2]
        else [])) :=
  c2_overflow_success_fanout envPasteOk msgLong "room1" sampleRow "p.io/1"
    rfl (by decide) (by decide) rfl

/-- C8: a routed non-Event message that does not overflow is split on
newline characters, whitespace-only lines are discarded, and each
remaining line is sent as a separate "[sender] line" message to every
adapter whose network differs from the origin (the only other sends
being the unformatted bot reply, when one exists); no blank line is
ever among the relayed lines. -/
theorem c8_line_split_fanout (env : Env) (msg : Message) (c : String)
    (b : BindingRow) (hb : get_binding env.bindings msg = some (c, b))
    (he : msg.mtype ≠ MessageType.Event)
    (ho : overflow msg.content = false) :
    ((process env msg).sends =
      env.channels.flatMap (fun a =>
        (if a.ChanTag ≠ msg.channel then
          (splitLines msg.content).map (fun line =>
            Send.mk a.ChanTag (b.get a.ChanTag) (fmtLine msg.sender line))
        else []) ++
        (if (dispatched env msg).2 ≠ "" then
          [Send.mk a.ChanTag (b.get a.ChanTag) (dispatched env msg).2]
        else []))) ∧
    ∀ line, isBlankLine line = true → line ∉ splitLines msg.content := by
  constructor
  · rw [process_nonEvent env msg c b hb he, (dispatched_fields env msg).1,
      if_neg (by rw [ho]; exact Bool.false_ne_true)]
    simp [fanout, (dispatched_fields env msg).2.1,
      (dispatched_fields env msg).2.2.1, (dispatched_fields env msg).1]
  · intro line hbl hmem
    rw [splitLines, List.mem_filter] at hmem
    rw [hbl] at hmem
    simp at hmem

/-- C8 witness: the "hi", blank, "yo" message; the whitespace-only
middle line is dropped and only the IRC origin adapter is skipped. -/
theorem c8_line_split_fanout_witness :
    ((process envPasteOk msgHi).sends =
      envPasteOk.channels.flatMap (fun a =>
        (if a.ChanTag ≠ msgHi.channel then
          (splitLines msgHi.content).map (fun line =>
            Send.mk a.ChanTag (sampleRow.get a.ChanTag)
              (fmtLine msgHi.sender line))
        else []) ++
        (if (dispatched envPasteOk msgHi).2 ≠ "" then
          [Send.mk a.ChanTag (sampleRow.get a.ChanTag)
            (dispatched envPasteOk msgHi).2]
        else []))) ∧
    ∀ line, isBlankLine line = true → line ∉ splitLines msgHi.content :=
  c8_line_split_fanout envPasteOk msgHi "room1" sampleRow rfl (by decide)
    (by decide)

/-- C5, counterexample: the claim that a non-empty command reply is
always sent to every adapter is false. A routed Command message whose
content overflows and whose paste fails is dropped by the continue
before the fan-out: the reply "pong" is logged but no send happens at
all, although the adapter list is non-empty. -/
theorem c5_reply_unsent_counterexample :
    get_binding envCmdFail.bindings msgCmdLong = some ("room1", sampleRow) ∧
    (dispatched envCmdFail msgCmdLong).2 = "pong" ∧
    envCmdFail.channels ≠ [] ∧
    (process envCmdFail msgCmdLong).sends = [] ∧
    ("room1", { channel := msgCmdLong.channel,
                sender := envCmdFail.botname,
                receiver := msgCmdLong.receiver, content := "pong",
                mtype := MessageType.Text, date := msgCmdLong.date,
                time := msgCmdLong.time, media_url := none }) ∈
      (process envCmdFail msgCmdLong).logs := by
  refine ⟨rfl, rfl, ?_, ?_, ?_⟩ <;> decide

/-- C5, amended: for every routed message with a non-empty command
reply, the reply is logged as a synthetic message from the configured
bot identity, and, provided the message is not dropped by a failed
overflow paste, the reply is sent unformatted to the bound address of
every adapter, the origin adapter included. -/
theorem c5_reply_fanout (env : Env) (msg : Message) (c : String)
    (b : BindingRow) (hb : get_binding env.bindings msg = some (c, b))
    (hr : (dispatched env msg).2 ≠ "")
    (hnd : ¬ (overflow msg.content = true ∧
      env.new_paste c (dispatched env msg).1
        (env.log_ref c (dispatched env msg).1) = none)) :
    ((c, { channel := msg.channel, sender := env.botname,
           receiver := msg.receiver, content := (dispatched env msg).2,
           mtype := MessageType.Text, date := msg.date, time := msg.time,
           media_url := none }) ∈ (process env msg).logs) ∧
    ∀ a ∈ env.channels,
      Send.mk a.ChanTag (b.get a.ChanTag) (dispatched env msg).2 ∈
        (process env msg).sends := by
  obtain ⟨heq, hcmd⟩ := dispatched_reply_ne env msg hr
  have he : msg.mtype ≠ MessageType.Event := by rw [hcmd]; simp
  rw [process_nonEvent env msg c b hb he, (dispatched_fields env msg).1]
  by_cases ho : overflow msg.content = true
  · rcases hu : env.new_paste c (dispatched env msg).1
        (env.log_ref c (dispatched env msg).1) with _ | url
    · exact absurd ⟨ho, hu⟩ hnd
    · rw [if_pos ho]
      refine ⟨?_, fun a ha => reply_mem_fanout env.channels b
        (dispatched env msg).1 (dispatched env msg).2
        [url ++ " (long text)"] true a ha hr⟩
      rw [heq]
      simp [hr]
  · rw [if_neg ho]
    refine ⟨?_, fun a ha => reply_mem_fanout env.channels b
      (dispatched env msg).1 (dispatched env msg).2
      (splitLines msg.content) false a ha hr⟩
    rw [heq]
    simp [hr]

/-- C5 witness: the short command with reply "pong"; the reply is
logged and sent to all three adapters. -/
theorem c5_reply_fanout_witness :
    (("room1", { channel := msgCmdPing.channel,
                 sender := envCmdPong.botname,
                 receiver := msgCmdPing.receiver,
                 content := (dispatched envCmdPong msgCmdPing).2,
                 mtype := MessageType.Text, date := msgCmdPing.date,
                 time := msgCmdPing.time, media_url := none }) ∈
      (process envCmdPong msgCmdPing).logs) ∧
    ∀ a ∈ envCmdPong.channels,
      Send.mk a.ChanTag (sampleRow.get a.ChanTag)
          (dispatched envCmdPong msgCmdPing).2 ∈
        (process envCmdPong msgCmdPing).sends :=
  c5_reply_fanout envCmdPong msgCmdPing "room1" sampleRow rfl (by decide)
    (by decide)

/-- C6: a routed Command message whose dispatch raises is recovered
locally: the bot reply stays empty and the whole loop body behaves
exactly as it does on the same message downgraded to Text, so the
message is still relayed as plain content through the non-Event path. -/
theorem c6_command_error_downgrade (env : Env) (msg : Message)
    (hc : msg.mtype = MessageType.Command)
    (he : env.dispatch msg = DispatchResult.error) :
    (dispatched env msg).2 = "" ∧
    process env msg = process env { msg with mtype := MessageType.Text } := by
  have h1 : dispatched env msg = ({ msg with mtype := MessageType.Text }, "") := by
    unfold dispatched
    rw [if_pos hc, he]
  have h2 : dispatched env { msg with mtype := MessageType.Text } =
      ({ msg with mtype := MessageType.Text }, "") := by
    apply dispatched_not_command
    simp
  have hg : get_binding env.bindings { msg with mtype := MessageType.Text } =
      get_binding env.bindings msg := rfl
  refine ⟨by rw [h1], ?_⟩
  simp only [process, hg, h1, h2]

/-- C6 witness: the raising dispatch on the short command message. -/
theorem c6_command_error_downgrade_witness :
    (dispatched envCmdError msgCmdPing).2 = "" ∧
    process envCmdError msgCmdPing =
      process envCmdError { msgCmdPing with mtype := MessageType.Text } :=
  c6_command_error_downgrade envCmdError msgCmdPing rfl rfl

/-- C9: encoding a Message with dumps and decoding the result with
loads restores a Message equal to the original in all eight fields,
also when date, time and media_url are left unset, which decode back to
the explicit none state rather than failing. -/
theorem c9_dumps_loads_roundtrip (m : Message) :
    Message.loads (Message.dumps m) = some m := by
  obtain ⟨ch, s, r, ct, mt, d, t, mu⟩ := m
  cases ch <;> cases mt <;>
    simp [Message.dumps, Message.loads, ChannelType.tag, MessageType.tag,
      ChannelType.ofTag, MessageType.ofTag, List.lookup]

/-- C9 witness: the round trip on the sample Event message, whose
optional fields are all unset. -/
theorem c9_dumps_loads_roundtrip_witness :
    Message.loads (Message.dumps msgEvent) = some msgEvent :=
  c9_dumps_loads_roundtrip msgEvent

/-- C10: a routed non-Event message that overflows and whose paste
fails has already been logged exactly once (as the first log call of
the loop body) before it is dropped: its log entry survives even
though no send happens, unlike an unroutable message which leaves no
log entry. -/
theorem c10_logged_before_drop (env : Env) (msg : Message) (c : String)
    (b : BindingRow) (hb : get_binding env.bindings msg = some (c, b))
    (he : msg.mtype ≠ MessageType.Event)
    (ho : overflow msg.content = true)
    (hp : env.new_paste c (dispatched env msg).1
      (env.log_ref c (dispatched env msg).1) = none) :
    (∃ rest, (process env msg).logs = (c, (dispatched env msg).1) :: rest ∧
      (c, (dispatched env msg).1) ∉ rest) ∧
    (process env msg).sends = [] := by
  rw [process_nonEvent env msg c b hb he, (dispatched_fields env msg).1,
    if_pos ho, hp]
  refine ⟨⟨_, rfl, ?_⟩, rfl⟩
  by_cases hr : (dispatched env msg).2 = ""
  · simp [hr]
  · obtain ⟨heq, hcmd⟩ := dispatched_reply_ne env msg hr
    rw [if_pos hr]
    intro hmem
    rw [List.mem_singleton] at hmem
    have hmt : (dispatched env msg).1.mtype = MessageType.Text := by
      have h2 := congrArg (fun p => p.2.mtype) hmem
      simpa using h2
    rw [heq, hcmd] at hmt
    exact absurd hmt (by simp)

/-- C10 witness: the six-newline message with the failing store keeps
its single log entry while nothing is sent. -/
theorem c10_logged_before_drop_witness :
    (∃ rest, (process envBase msgLong).logs =
        ("room1", (dispatched envBase msgLong).1) :: rest ∧
      ("room1", (dispatched envBase msgLong).1) ∉ rest) ∧
    (process envBase msgLong).sends = [] :=
  c10_logged_before_drop envBase msgLong "room1" sampleRow rfl (by decide)
    (by decide) rfl

end Fishroom
